import Mathlib

/-!
Verification of the RCL-like wrapper core (rcl_like_wrapper.cpp, subscriber.hpp)
against its natural-language specification.

The embedding models:
* the process-wide message-type registry (`MessageTypes`, `rcl_like_wrapper_init`);
* the handle-based boundary API (`spin`, `spin_once`, `spin_some`, `stop_spin`,
  `destroy_node`, `publish`, `get_subscriber_count`, `get_publisher_count`,
  `create_publisher`, `create_subscription`, `create_timer`, `create_node`);
* the `Executor` (add/remove/stop and the spin-loop cycle);
* `Rate` (construction and `sleep` with its catch-up loop);
* the subscription dispatch path of subscriber.hpp
  (`on_data_available`, `SubscriptionCallback::invoke`).

Machine pointers (`intptr_t` handles) are modelled as `Nat`, with 0 the null
handle.  Times and durations (`std::chrono`) are modelled as `Int` tick counts.
Each boundary operation returns an `OpResult` recording, besides its return
value, the error lines written to the log stream and the list of handles it
dereferenced (cast-and-member-call on the pointed-to object); the behaviour of
the pointed-to object itself is beyond the boundary and is either irrelevant to
the claims or supplied by a `World` of collaborator outcomes.
-/

/-- Opaque type-support descriptor held by `MessageType`
(rcl_like_wrapper.cpp line 198): the wrapped `TopicDataType` pointer,
modelled as an opaque number. -/
structure MessageTypeDesc where
  typeSupport : Nat
deriving DecidableEq, Repr

/-- The process-wide registry `message_types` (rcl_like_wrapper.cpp line 225),
a map from message-type name to descriptor, modelled as an association list
with first-match lookup. -/
abbrev MessageTypes := List (String × MessageTypeDesc)

/-- Lookup in the registry: models `message_types.find(name)` /
`message_types.at(name)`. -/
def MessageTypes.lookupName : MessageTypes → String → Option MessageTypeDesc
  | [], _ => none
  | (k, v) :: rest, name => if k = name then some v else MessageTypes.lookupName rest name

/-- `rcl_like_wrapper_init` (rcl_like_wrapper.cpp lines 415-428): for each
entry of the argument, add it to the registry only when its name is not yet
registered; an already-registered name is left untouched. -/
def rcl_like_wrapper_init (types : MessageTypes) (reg : MessageTypes) : MessageTypes :=
  match types with
  | [] => reg
  | (k, v) :: rest =>
      rcl_like_wrapper_init rest
        (match MessageTypes.lookupName reg k with
         | some _ => reg
         | none => reg ++ [(k, v)])

/-- Result of one boundary operation: the error lines it logged, the handles
it dereferenced, and its return value. -/
structure OpResult (α : Type) where
  logs : List String
  derefs : List Nat
  ret : α
deriving DecidableEq, Repr

/-- Outcomes of the collaborators behind the boundary: the registry snapshot
and, for each node-level factory (whose implementation is behind the node
object, outside the boundary file), the outcome of calling it — either a
returned pointer (0 for null) or a thrown exception, left unconstrained. -/
structure World where
  message_types : MessageTypes
  nodeCreatePublisher : Nat → String → Except String Nat
  nodeCreateSubscription : Nat → String → Except String Nat
  nodeCreateTimer : Nat → Int → Except String Nat
  pubSubscriberCount : Nat → Int
  subPublisherCount : Nat → Int

/-- `spin(node_ptr)` (rcl_like_wrapper.cpp lines 248-258): a zero handle is
logged and the call returns; otherwise the handle is cast and `node->spin()`
is called on it. -/
def spin (node_ptr : Nat) : OpResult Unit :=
  if node_ptr = 0 then ⟨["node pointer is invalid!"], [], ()⟩
  else ⟨[], [node_ptr], ()⟩

/-- `spin_once(node_ptr)` (lines 261-271): same guard, then `node->spin_once()`. -/
def spin_once (node_ptr : Nat) : OpResult Unit :=
  if node_ptr = 0 then ⟨["node pointer is invalid!"], [], ()⟩
  else ⟨[], [node_ptr], ()⟩

/-- `spin_some(node_ptr)` (lines 274-284): same guard, then `node->spin_some()`. -/
def spin_some (node_ptr : Nat) : OpResult Unit :=
  if node_ptr = 0 then ⟨["node pointer is invalid!"], [], ()⟩
  else ⟨[], [node_ptr], ()⟩

/-- `stop_spin(node_ptr)` (lines 287-297): same guard, then `node->stop_spin()`. -/
def stop_spin (node_ptr : Nat) : OpResult Unit :=
  if node_ptr = 0 then ⟨["node pointer is invalid!"], [], ()⟩
  else ⟨[], [node_ptr], ()⟩

/-- `destroy_node(node_ptr)` (lines 240-245): the source performs NO validity
check — it unconditionally casts the handle and calls `node->destroy()` on it. -/
def destroy_node (node_ptr : Nat) : OpResult Unit :=
  ⟨[], [node_ptr], ()⟩

/-- `publish(publisher_ptr, message)` (lines 326-336): zero handle is logged
and the call returns; otherwise `publisher->publish(message)`. -/
def publish (publisher_ptr : Nat) (message : Nat) : OpResult Unit :=
  if publisher_ptr = 0 then ⟨["publisher pointer is invalid!"], [], ()⟩
  else ⟨[], [publisher_ptr], ()⟩

/-- `get_subscriber_count(publisher_ptr)` (lines 339-349): zero handle is
logged and 0 returned; otherwise the publisher object is queried. -/
def get_subscriber_count (w : World) (publisher_ptr : Nat) : OpResult Int :=
  if publisher_ptr = 0 then ⟨["publisher pointer is invalid!"], [], 0⟩
  else ⟨[], [publisher_ptr], w.pubSubscriberCount publisher_ptr⟩

/-- `get_publisher_count(subscriber_ptr)` (lines 380-390): zero handle is
logged and 0 returned; otherwise the subscriber object is queried. -/
def get_publisher_count (w : World) (subscriber_ptr : Nat) : OpResult Int :=
  if subscriber_ptr = 0 then ⟨["subscriber pointer is invalid!"], [], 0⟩
  else ⟨[], [subscriber_ptr], w.subPublisherCount subscriber_ptr⟩

/-- `create_publisher(node_ptr, message_type_name, topic, qos)`
(lines 300-323): zero handle → log and return 0; unregistered type name →
return 0 with no log; otherwise call `node->create_publisher` on the
namespaced topic, propagating any exception (the source installs no handler),
and return 0 when it yields a null pointer.  The world is returned unchanged:
the source only reads the registry here. -/
def create_publisher (w : World) (node_ptr : Nat) (message_type_name topic : String) :
    Except String (World × OpResult Nat) :=
  if node_ptr = 0 then Except.ok (w, ⟨["node pointer is invalid!"], [], 0⟩)
  else
    match MessageTypes.lookupName w.message_types message_type_name with
    | none => Except.ok (w, ⟨[], [], 0⟩)
    | some _ =>
        match w.nodeCreatePublisher node_ptr ("rt/" ++ topic) with
        | Except.error e => Except.error e
        | Except.ok pub =>
            if pub = 0 then Except.ok (w, ⟨[], [node_ptr], 0⟩)
            else Except.ok (w, ⟨[], [node_ptr], pub⟩)

/-- `create_subscription(node_ptr, message_type_name, topic, qos, callback)`
(lines 352-377): zero handle → log and return 0; unregistered type name →
return 0 with no log, without reaching `node->create_subscription`; otherwise
call `node->create_subscription` on the namespaced topic (the user callback is
passed through opaquely), propagating any exception (no handler in the
source), and return 0 when it yields a null pointer. -/
def create_subscription (w : World) (node_ptr : Nat) (message_type_name topic : String) :
    Except String (World × OpResult Nat) :=
  if node_ptr = 0 then Except.ok (w, ⟨["node pointer is invalid!"], [], 0⟩)
  else
    match MessageTypes.lookupName w.message_types message_type_name with
    | none => Except.ok (w, ⟨[], [], 0⟩)
    | some _ =>
        match w.nodeCreateSubscription node_ptr ("rt/" ++ topic) with
        | Except.error e => Except.error e
        | Except.ok sub =>
            if sub = 0 then Except.ok (w, ⟨[], [node_ptr], 0⟩)
            else Except.ok (w, ⟨[], [node_ptr], sub⟩)

/-- `create_timer(node_ptr, period, callback)` (lines 393-412): zero handle →
log and return 0; otherwise call `node->create_timer`, propagating any
exception, and return 0 when it yields a null pointer. -/
def create_timer (w : World) (node_ptr : Nat) (period : Int) :
    Except String (World × OpResult Nat) :=
  if node_ptr = 0 then Except.ok (w, ⟨["node pointer is invalid!"], [], 0⟩)
  else
    match w.nodeCreateTimer node_ptr period with
    | Except.error e => Except.error e
    | Except.ok t =>
        if t = 0 then Except.ok (w, ⟨[], [node_ptr], 0⟩)
        else Except.ok (w, ⟨[], [node_ptr], t⟩)

/-- Modelled from C++ semantics: plain (non-nothrow) `new Node(domain_id)`
either throws — `std::bad_alloc` or a constructor exception — or returns a
non-null pointer; it never returns null.  The allocation outcome is a
parameter. -/
abbrev AllocOutcome := Except String { p : Nat // p ≠ 0 }

/-- `create_node(domain_id)` (lines 228-237): allocate a `Node`; the source
then tests the returned pointer for null and returns 0 in that case, else
returns the pointer.  The `Bool` records whether the null branch was taken. -/
def create_node (domain_id : Nat) (alloc : AllocOutcome) : Except String (Nat × Bool) :=
  match alloc with
  | Except.error e => Except.error e
  | Except.ok p => if p.1 = 0 then Except.ok (0, true) else Except.ok (p.1, false)

/-- State of an `Executor` (rcl_like_wrapper.cpp lines 99-173): the running
flag and the registered node handles, in registration order (duplicates kept,
as `add_node` appends unconditionally). -/
structure ExecState where
  running : Bool
  nodes : List Nat
deriving DecidableEq, Repr

/-- `Executor::add_node` (lines 110-121): append a non-null handle; a null
handle is only logged. -/
def Executor.add_node (s : ExecState) (p : Nat) : ExecState :=
  if p ≠ 0 then { s with nodes := s.nodes ++ [p] } else s

/-- `Executor::remove_node` (lines 124-128): the erase-remove idiom deletes
every occurrence of the handle from the node list. -/
def Executor.remove_node (s : ExecState) (p : Nat) : ExecState :=
  { s with nodes := s.nodes.filter (fun q => q != p) }

/-- One iteration of the body of `Executor::spin` (lines 155-170): under the
lock, `spin_some` is called on every registered node in list order (null
entries are only logged).  Returns the handles on which `spin_some` is
invoked during that cycle. -/
def Executor.spinCycleCalls (s : ExecState) : List Nat :=
  s.nodes.filter (fun q => q != 0)

/-- `Executor::stop` (lines 131-149): only when the running flag is set does
it clear the flag and request `stop_spin` on every registered (non-null)
node; otherwise it does nothing.  Returns the new state and the handles on
which `stop_spin` was requested. -/
def Executor.stop (s : ExecState) : ExecState × List Nat :=
  if s.running then
    ({ s with running := false }, s.nodes.filter (fun q => q != 0))
  else (s, [])

/-- Operations that can act on an executor between spin-loop cycles. -/
inductive ExecOp where
  | addNode (p : Nat)
  | removeNode (p : Nat)
  | stopCall
  | cycle
deriving DecidableEq, Repr

/-- Apply one operation, returning the new state and the handles on which
`spin_some` was invoked (non-empty only for `cycle`). -/
def Executor.applyOp (s : ExecState) : ExecOp → ExecState × List Nat
  | ExecOp.addNode p => (Executor.add_node s p, [])
  | ExecOp.removeNode p => (Executor.remove_node s p, [])
  | ExecOp.stopCall => ((Executor.stop s).1, [])
  | ExecOp.cycle => (s, Executor.spinCycleCalls s)

/-- Run a sequence of operations, accumulating all `spin_some` invocations. -/
def Executor.runOps (s : ExecState) : List ExecOp → ExecState × List Nat
  | [] => (s, [])
  | op :: rest =>
      let r := Executor.applyOp s op
      let r2 := Executor.runOps r.1 rest
      (r2.1, r.2 ++ r2.2)

/-- `Rate` (rcl_like_wrapper.cpp lines 176-177): the period and the next wake
instant, in integer clock ticks. -/
structure Rate where
  period : Int
  next_time : Int
deriving DecidableEq, Repr

/-- The `Rate` constructor (line 177): `next_time = now + period`. -/
def Rate.make (period now : Int) : Rate :=
  ⟨period, now + period⟩

/-- The catch-up loop of `Rate::sleep` (lines 189-192):
`while (now >= next_time) next_time += period`.  The loop terminates exactly
when the period is positive, so the positivity proof is a parameter. -/
def catchUp (period now next : Int) (hp : 0 < period) : Int :=
  if h : next ≤ now then catchUp period now (next + period) hp else next
termination_by (now - next + 1).toNat
decreasing_by
  simp_wf
  omega

/-- `Rate::sleep` (lines 180-195): when the current time is before
`next_time`, sleep until `next_time` (which is left unchanged); otherwise run
the catch-up loop and sleep until the advanced `next_time`.  Returns the
updated rate and the wake instant passed to `sleep_until`. -/
def Rate.sleep (r : Rate) (now : Int) (hp : 0 < r.period) : Rate × Int :=
  if now < r.next_time then (r, r.next_time)
  else
    let nt := catchUp r.period now r.next_time hp
    ({ period := r.period, next_time := nt }, nt)

/-- State of one subscription (subscriber.hpp): the owned message buffer
`message_ptr_buffer_`, plus observation traces — the number of dispatch
closures produced to the channel, the messages taken from the transport in
arrival order, the messages passed to the user callback in invocation order,
the number of defensive empty-buffer errors, and the number of times the
dispatch closure has run. -/
structure SubState (M : Type) where
  buffer : List M
  pushed : Nat
  delivered : List M
  invoked : List M
  emptyErrors : Nat
  runs : Nat
deriving DecidableEq, Repr

/-- The subscription state right after construction: everything empty. -/
def SubState.start (M : Type) : SubState M :=
  ⟨[], 0, [], [], 0, 0⟩

/-- `SubscriberListener::on_data_available` (subscriber.hpp lines 65-74), on
a successful `take_next_sample` with valid data: the message is copied into a
fresh slot appended to the owned buffer, and the dispatch closure is produced
to the owning channel. -/
def on_data_available {M : Type} (s : SubState M) (msg : M) : SubState M :=
  { s with
    buffer := s.buffer ++ [msg]
    pushed := s.pushed + 1
    delivered := s.delivered ++ [msg] }

/-- Body of the try block of `SubscriptionCallback::invoke` (subscriber.hpp
lines 25-36): on a non-empty buffer, call the user callback on the front
message — which may throw, modelled by `Except` — and only then erase that
front slot; on an empty buffer, report the defensive error.  An exception
escapes this body. -/
def invokeBody {M : Type} (cb : M → Except String Unit) (s : SubState M) :
    Except String (SubState M × List String) :=
  match s.buffer with
  | [] => Except.ok ({ s with emptyErrors := s.emptyErrors + 1 }, ["Error: Vector is empty"])
  | m :: rest =>
      match cb m with
      | Except.ok _ =>
          Except.ok ({ s with buffer := rest, invoked := s.invoked ++ [m] }, [])
      | Except.error e => Except.error e

/-- `SubscriptionCallback::invoke` (subscriber.hpp lines 23-45): run the try
body; any exception is caught at this boundary and logged, leaving the buffer
as it was (the erase is inside the try, after the callback).  The `runs`
counter records that the closure ran. -/
def invoke {M : Type} (cb : M → Except String Unit) (s : SubState M) :
    SubState M × List String :=
  let s0 := { s with runs := s.runs + 1 }
  match invokeBody cb s0 with
  | Except.ok r => r
  | Except.error e => (s0, ["Exception during callback invocation: " ++ e])

/-- Events observable at one subscription: a message delivered by the
transport collaborator, or one run of its dispatch closure taken from the
queue. -/
inductive SubEvent (M : Type) where
  | deliver (m : M)
  | dispatch
deriving DecidableEq, Repr

/-- Run a sequence of subscription events, accumulating the log lines. -/
def runEvents {M : Type} (cb : M → Except String Unit) :
    List (SubEvent M) → SubState M → SubState M × List String
  | [], s => (s, [])
  | SubEvent.deliver m :: rest, s => runEvents cb rest (on_data_available s m)
  | SubEvent.dispatch :: rest, s =>
      let r := invoke cb s
      let r2 := runEvents cb rest r.1
      (r2.1, r.2 ++ r2.2)

/-- The messages delivered by a sequence of events, in arrival order. -/
def deliveredOf {M : Type} : List (SubEvent M) → List M
  | [] => []
  | SubEvent.deliver m :: rest => m :: deliveredOf rest
  | SubEvent.dispatch :: rest => deliveredOf rest

/-- Modelled from the spec: `drain_available` of the CallbackQueue invokes,
in FIFO order, every closure present at the moment of the call (the queue
implementation, channel.hpp, is not under src/).  For one subscription every
pending closure is the same dispatch closure, so draining `k` pending
closures runs `invoke` `k` times. -/
def drainAll {M : Type} (cb : M → Except String Unit) :
    Nat → SubState M → SubState M × List String
  | 0, s => (s, [])
  | k + 1, s =>
      let r := invoke cb s
      let r2 := drainAll cb k r.1
      (r2.1, r.2 ++ r2.2)

/-! ## Helper lemmas -/

theorem lookupName_append_of_some {reg : MessageTypes} {k : String} {v : MessageTypeDesc}
    (h : MessageTypes.lookupName reg k = some v) (l : MessageTypes) :
    MessageTypes.lookupName (reg ++ l) k = some v := by
  induction reg with
  | nil => simp [MessageTypes.lookupName] at h
  | cons hd tl ih =>
      obtain ⟨k0, v0⟩ := hd
      simp only [MessageTypes.lookupName, List.cons_append] at h ⊢
      by_cases hk : k0 = k
      · simpa [hk] using h
      · rw [if_neg hk] at h ⊢
        exact ih h

theorem lookupName_append_single_of_none {reg : MessageTypes} {k : String}
    (h : MessageTypes.lookupName reg k = none) (k1 : String) (v1 : MessageTypeDesc) :
    MessageTypes.lookupName (reg ++ [(k1, v1)]) k =
      if k1 = k then some v1 else none := by
  induction reg with
  | nil => simp [MessageTypes.lookupName]
  | cons hd tl ih =>
      obtain ⟨k0, v0⟩ := hd
      simp only [MessageTypes.lookupName, List.cons_append] at h ⊢
      by_cases hk : k0 = k
      · rw [if_pos hk] at h
        exact absurd h (by simp)
      · rw [if_neg hk] at h ⊢
        exact ih h

theorem init_keeps_some {k : String} {v : MessageTypeDesc} :
    ∀ (types reg : MessageTypes), MessageTypes.lookupName reg k = some v →
      MessageTypes.lookupName (rcl_like_wrapper_init types reg) k = some v := by
  intro types
  induction types with
  | nil => intro reg h; simpa [rcl_like_wrapper_init] using h
  | cons hd tl ih =>
      intro reg h
      obtain ⟨k1, v1⟩ := hd
      simp only [rcl_like_wrapper_init]
      cases hfind : MessageTypes.lookupName reg k1 with
      | some v2 => exact ih reg h
      | none => exact ih (reg ++ [(k1, v1)]) (lookupName_append_of_some h [(k1, v1)])

theorem init_adds_new {k : String} {v : MessageTypeDesc} :
    ∀ (types reg : MessageTypes), MessageTypes.lookupName reg k = none →
      MessageTypes.lookupName types k = some v →
      MessageTypes.lookupName (rcl_like_wrapper_init types reg) k = some v := by
  intro types
  induction types with
  | nil => intro reg hn ht; simp [MessageTypes.lookupName] at ht
  | cons hd tl ih =>
      intro reg hn ht
      obtain ⟨k1, v1⟩ := hd
      simp only [MessageTypes.lookupName] at ht
      simp only [rcl_like_wrapper_init]
      by_cases hk : k1 = k
      · rw [if_pos hk] at ht
        subst hk
        rw [hn]
        apply init_keeps_some
        rw [lookupName_append_single_of_none hn]
        simpa using ht
      · rw [if_neg hk] at ht
        cases hfind : MessageTypes.lookupName reg k1 with
        | some v2 => exact ih reg hn ht
        | none =>
            apply ih (reg ++ [(k1, v1)]) _ ht
            rw [lookupName_append_single_of_none hn, if_neg hk]

/-! ## Claim theorems -/

/-- C9: `rcl_like_wrapper_init` is additive only — for every input mapping
and prior registry, a name already present keeps its previously registered
descriptor (re-registration is a no-op, never an overwrite), a name not yet
present is added with its descriptor, and no entry is ever removed. -/
theorem C9_registry_additive (types reg : MessageTypes) (k : String) (v : MessageTypeDesc) :
    (MessageTypes.lookupName reg k = some v →
      MessageTypes.lookupName (rcl_like_wrapper_init types reg) k = some v)
    ∧ (MessageTypes.lookupName reg k = none →
        MessageTypes.lookupName types k = some v →
        MessageTypes.lookupName (rcl_like_wrapper_init types reg) k = some v)
    ∧ ((MessageTypes.lookupName reg k).isSome →
        (MessageTypes.lookupName (rcl_like_wrapper_init types reg) k).isSome) := by
  refine ⟨fun h => init_keeps_some types reg h,
          fun hn ht => init_adds_new types reg hn ht, fun h => ?_⟩
  cases hv : MessageTypes.lookupName reg k with
  | none => rw [hv] at h; simp at h
  | some v2 => rw [init_keeps_some types reg hv]; rfl

/-- Witness for C9: registering a mapping where name A is already registered
(with a different descriptor) and name B is new — A keeps its old descriptor,
B is added. -/
theorem C9_registry_additive_witness :
    MessageTypes.lookupName
        (rcl_like_wrapper_init [("A", ⟨9⟩), ("B", ⟨2⟩)] [("A", ⟨1⟩)]) "A" = some ⟨1⟩
    ∧ MessageTypes.lookupName
        (rcl_like_wrapper_init [("A", ⟨9⟩), ("B", ⟨2⟩)] [("A", ⟨1⟩)]) "B" = some ⟨2⟩ :=
  ⟨(C9_registry_additive [("A", ⟨9⟩), ("B", ⟨2⟩)] [("A", ⟨1⟩)] "A" ⟨1⟩).1 rfl,
   (C9_registry_additive [("A", ⟨9⟩), ("B", ⟨2⟩)] [("A", ⟨1⟩)] "B" ⟨2⟩).2.1 rfl rfl⟩

/-- C10: for every domain id and allocation outcome, whenever `create_node`
returns normally its handle is non-zero and the null-pointer branch was not
taken — plain `new` either throws or yields a non-null pointer, so the
sentinel 0 is never returned. -/
theorem C10_create_node_nonzero (domain_id : Nat) (alloc : AllocOutcome)
    (r : Nat) (hb : Bool) (heq : create_node domain_id alloc = Except.ok (r, hb)) :
    r ≠ 0 ∧ hb = false := by
  cases alloc with
  | error e => simp [create_node] at heq
  | ok p =>
      have hp := p.2
      simp only [create_node, if_neg hp, Except.ok.injEq, Prod.mk.injEq] at heq
      obtain ⟨h1, h2⟩ := heq
      exact ⟨h1 ▸ hp, h2.symm⟩

/-- Witness for C10: a concrete successful allocation at address 5 yields
handle 5 with the null branch untaken. -/
theorem C10_create_node_nonzero_witness : (5 : Nat) ≠ 0 ∧ false = false :=
  C10_create_node_nonzero 0 (Except.ok ⟨5, by decide⟩) 5 false rfl

/-- C1: behaviour of every handle-taking boundary operation on the zero
handle.  The ten guarded operations log the error, dereference nothing and
return the default value; `destroy_node`, however, performs no check at all —
it logs nothing and dereferences the null handle (the code slip the claim and
spec rule out). -/
theorem C1_zero_handle_behavior (w : World) (msg : Nat) (tname topic : String) (period : Int) :
    spin 0 = ⟨["node pointer is invalid!"], [], ()⟩
    ∧ spin_once 0 = ⟨["node pointer is invalid!"], [], ()⟩
    ∧ spin_some 0 = ⟨["node pointer is invalid!"], [], ()⟩
    ∧ stop_spin 0 = ⟨["node pointer is invalid!"], [], ()⟩
    ∧ publish 0 msg = ⟨["publisher pointer is invalid!"], [], ()⟩
    ∧ get_subscriber_count w 0 = ⟨["publisher pointer is invalid!"], [], 0⟩
    ∧ get_publisher_count w 0 = ⟨["subscriber pointer is invalid!"], [], 0⟩
    ∧ create_publisher w 0 tname topic = Except.ok (w, ⟨["node pointer is invalid!"], [], 0⟩)
    ∧ create_subscription w 0 tname topic = Except.ok (w, ⟨["node pointer is invalid!"], [], 0⟩)
    ∧ create_timer w 0 period = Except.ok (w, ⟨["node pointer is invalid!"], [], 0⟩)
    ∧ destroy_node 0 = ⟨[], [0], ()⟩ :=
  ⟨rfl, rfl, rfl, rfl, rfl, rfl, rfl, rfl, rfl, rfl, rfl⟩

/-- A concrete world for the C4 counterexample: the type name T is
registered, and the node-level factory yields a null pointer (the transport
object could not be created). -/
def nullFactoryWorld : World where
  message_types := [("T", ⟨1⟩)]
  nodeCreatePublisher := fun _ _ => Except.ok 0
  nodeCreateSubscription := fun _ _ => Except.ok 0
  nodeCreateTimer := fun _ _ => Except.ok 0
  pubSubscriberCount := fun _ => 0
  subPublisherCount := fun _ => 0

/-- Counterexample to C4: a construction failure — the node-level factory
returns a null pointer for a registered type on a valid node handle — makes
`create_subscription` return the sentinel 0 with an empty log, so this
failure is not logged at the boundary as the claim states. -/
theorem C4_counterexample :
    create_subscription nullFactoryWorld 1 "T" "chatter" =
      Except.ok (nullFactoryWorld, ⟨[], [1], 0⟩) := rfl

/-- C4 amended: each `create_X` returns a non-zero handle on success and the
sentinel 0 on failure, but only the invalid-node-handle failure is logged;
the unregistered-type and null-construction failures return 0 silently, and
the boundary installs no exception handler, so an exception thrown by the
node-level constructor propagates to the caller. -/
theorem C4_create_failure_behavior (w : World) (node_ptr : Nat) (tname topic : String)
    (period : Int) (e : String) (res : Nat) (hn : node_ptr ≠ 0) :
    (create_subscription w 0 tname topic = Except.ok (w, ⟨["node pointer is invalid!"], [], 0⟩))
    ∧ (MessageTypes.lookupName w.message_types tname = none →
        create_subscription w node_ptr tname topic = Except.ok (w, ⟨[], [], 0⟩)
        ∧ create_publisher w node_ptr tname topic = Except.ok (w, ⟨[], [], 0⟩))
    ∧ (∀ v, MessageTypes.lookupName w.message_types tname = some v →
        w.nodeCreateSubscription node_ptr ("rt/" ++ topic) = Except.error e →
        create_subscription w node_ptr tname topic = Except.error e)
    ∧ (∀ v, MessageTypes.lookupName w.message_types tname = some v →
        w.nodeCreateSubscription node_ptr ("rt/" ++ topic) = Except.ok 0 →
        create_subscription w node_ptr tname topic = Except.ok (w, ⟨[], [node_ptr], 0⟩))
    ∧ (∀ v, MessageTypes.lookupName w.message_types tname = some v →
        w.nodeCreateSubscription node_ptr ("rt/" ++ topic) = Except.ok res → res ≠ 0 →
        create_subscription w node_ptr tname topic = Except.ok (w, ⟨[], [node_ptr], res⟩))
    ∧ (w.nodeCreateTimer node_ptr period = Except.ok 0 →
        create_timer w node_ptr period = Except.ok (w, ⟨[], [node_ptr], 0⟩))
    ∧ (w.nodeCreateTimer node_ptr period = Except.error e →
        create_timer w node_ptr period = Except.error e) := by
  refine ⟨rfl, fun hnone => ?_, fun v hv hsub => ?_, fun v hv hsub => ?_,
          fun v hv hsub hres => ?_, fun ht => ?_, fun ht => ?_⟩
  · constructor
    · simp only [create_subscription, if_neg hn, hnone]
    · simp only [create_publisher, if_neg hn, hnone]
  · simp only [create_subscription, if_neg hn, hv, hsub]
  · simp only [create_subscription, if_neg hn, hv, hsub, if_pos rfl, if_true, eq_self_iff_true]
  · simp only [create_subscription, if_neg hn, hv, hsub, if_neg hres]
  · simp only [create_timer, if_neg hn, ht, if_pos rfl, if_true, eq_self_iff_true]
  · simp only [create_timer, if_neg hn, ht]

/-- Witness for C4 amended: concrete evaluations in `nullFactoryWorld` —
silent sentinel on a null factory result, silent sentinel on an unregistered
type, and an error-logged sentinel on the zero node handle. -/
theorem C4_create_failure_behavior_witness :
    create_subscription nullFactoryWorld 0 "T" "chatter" =
      Except.ok (nullFactoryWorld, ⟨["node pointer is invalid!"], [], 0⟩)
    ∧ create_subscription nullFactoryWorld 1 "U" "chatter" =
      Except.ok (nullFactoryWorld, ⟨[], [], 0⟩)
    ∧ create_subscription nullFactoryWorld 1 "T" "chatter" =
      Except.ok (nullFactoryWorld, ⟨[], [1], 0⟩) :=
  ⟨(C4_create_failure_behavior nullFactoryWorld 1 "T" "chatter" 0 "" 0 (by decide)).1,
   ((C4_create_failure_behavior nullFactoryWorld 1 "U" "chatter" 0 "" 0 (by decide)).2.1 rfl).1,
   (C4_create_failure_behavior nullFactoryWorld 1 "T" "chatter" 0 "" 0 (by decide)).2.2.2.1
     ⟨1⟩ rfl rfl⟩

/-- C6: `create_subscription` on a message-type name absent from the registry
returns the sentinel 0 for every node handle, dereferences no handle (the
node-level `create_subscription` is never reached, so no sink is registered
with the transport), and leaves the registry — and hence the node state —
unchanged. -/
theorem C6_unregistered_type_no_registration (w : World) (node_ptr : Nat)
    (tname topic : String) (h : MessageTypes.lookupName w.message_types tname = none) :
    create_subscription w node_ptr tname topic =
      Except.ok (w, ⟨if node_ptr = 0 then ["node pointer is invalid!"] else [], [], 0⟩) := by
  by_cases hn : node_ptr = 0
  · subst hn
    simp [create_subscription]
  · simp only [create_subscription, if_neg hn, h, if_neg hn]

/-- Witness for C6: a concrete unregistered name on a valid handle returns 0
with nothing dereferenced and the world unchanged. -/
theorem C6_unregistered_type_no_registration_witness :
    create_subscription nullFactoryWorld 7 "Unregistered" "chatter" =
      Except.ok (nullFactoryWorld,
        ⟨if (7 : Nat) = 0 then ["node pointer is invalid!"] else [], [], 0⟩) :=
  C6_unregistered_type_no_registration nullFactoryWorld 7 "Unregistered" "chatter" rfl

/-- Counterexample to C7: calling `stop()` on an executor whose running flag
is already false (here: one registered node, never spun) requests `stop_spin`
on no node at all, while the claim says every call requests it on every
registered node. -/
theorem C7_counterexample :
    Executor.stop ⟨false, [5]⟩ = (⟨false, [5]⟩, []) := rfl

/-- C7 amended: `stop()` always leaves the running flag false; only when the
flag was true at entry does it request `stop_spin` on every registered
(non-null) node; and it is idempotent — a second call changes nothing and
requests nothing. -/
theorem C7_stop_behavior (s : ExecState) :
    (Executor.stop s).1.running = false
    ∧ (s.running = true → (Executor.stop s).2 = s.nodes.filter (fun q => q != 0))
    ∧ Executor.stop (Executor.stop s).1 = ((Executor.stop s).1, []) := by
  by_cases hr : s.running
  · refine ⟨?_, fun _ => ?_, ?_⟩
    · simp [Executor.stop, if_pos hr]
    · simp [Executor.stop, if_pos hr]
    · simp [Executor.stop, if_pos hr]
  · refine ⟨?_, fun habs => absurd habs hr, ?_⟩
    · simp only [Executor.stop, if_neg hr]
      simpa using (Bool.not_eq_true s.running).mp hr
    · simp [Executor.stop, if_neg hr]

/-- Witness for C7 amended: stopping a running executor with nodes [3, 0, 7]
clears the flag and requests `stop_spin` exactly on the non-null nodes, and
the repeated call is a no-op. -/
theorem C7_stop_behavior_witness :
    (Executor.stop ⟨true, [3, 0, 7]⟩).1.running = false
    ∧ (Executor.stop ⟨true, [3, 0, 7]⟩).2 = [3, 7]
    ∧ Executor.stop (Executor.stop ⟨true, [3, 0, 7]⟩).1 =
        ((Executor.stop ⟨true, [3, 0, 7]⟩).1, []) :=
  ⟨(C7_stop_behavior ⟨true, [3, 0, 7]⟩).1,
   (C7_stop_behavior ⟨true, [3, 0, 7]⟩).2.1 rfl,
   (C7_stop_behavior ⟨true, [3, 0, 7]⟩).2.2⟩

theorem runOps_avoids_removed {p : Nat} :
    ∀ (ops : List ExecOp) (s : ExecState), p ∉ s.nodes →
      (∀ q, ExecOp.addNode q ∈ ops → q ≠ p) →
      p ∉ (Executor.runOps s ops).1.nodes ∧ p ∉ (Executor.runOps s ops).2 := by
  intro ops
  induction ops with
  | nil => intro s hs _; exact ⟨hs, by simp [Executor.runOps]⟩
  | cons op rest ih =>
      intro s hs hadd
      have hrest : ∀ q, ExecOp.addNode q ∈ rest → q ≠ p := by
        intro q hq
        exact hadd q (List.mem_cons_of_mem op hq)
      have hstep : p ∉ (Executor.applyOp s op).1.nodes ∧ p ∉ (Executor.applyOp s op).2 := by
        cases op with
        | addNode q =>
            have hqp : q ≠ p := hadd q (List.mem_cons_self _ _)
            constructor
            · simp only [Executor.applyOp, Executor.add_node]
              by_cases hq0 : q ≠ 0
              · rw [if_pos hq0]
                simp only [List.mem_append, List.mem_singleton]
                rintro (h1 | h2)
                · exact hs h1
                · exact hqp h2.symm
              · rw [if_neg hq0]; exact hs
            · simp [Executor.applyOp]
        | removeNode q =>
            constructor
            · simp only [Executor.applyOp, Executor.remove_node]
              intro hmem
              exact hs (List.mem_of_mem_filter hmem)
            · simp [Executor.applyOp]
        | stopCall =>
            constructor
            · simp only [Executor.applyOp, Executor.stop]
              by_cases hr : s.running
              · rw [if_pos hr]; exact hs
              · rw [if_neg hr]; exact hs
            · simp [Executor.applyOp]
        | cycle =>
            refine ⟨hs, ?_⟩
            simp only [Executor.applyOp, Executor.spinCycleCalls]
            intro hmem
            exact hs (List.mem_of_mem_filter hmem)
      have ihr := ih (Executor.applyOp s op).1 hstep.1 hrest
      refine ⟨ihr.1, ?_⟩
      simp only [Executor.runOps, List.mem_append]
      rintro (h1 | h2)
      · exact hstep.2 h1
      · exact ihr.2 h2

/-- C8: after `remove_node(p)` every occurrence of `p` (even when registered
more than once) is gone from the node list, and over any subsequent sequence
of executor operations that never re-adds `p`, no spin-loop cycle ever
invokes `spin_some` on `p`, and `p` never reappears in the node list.
Removal itself is a total operation on the executor state. -/
theorem C8_remove_node_no_spin (s : ExecState) (p : Nat) (ops : List ExecOp)
    (hadd : ∀ q, ExecOp.addNode q ∈ ops → q ≠ p) :
    p ∉ (Executor.remove_node s p).nodes
    ∧ p ∉ (Executor.runOps (Executor.remove_node s p) ops).1.nodes
    ∧ p ∉ (Executor.runOps (Executor.remove_node s p) ops).2 := by
  have hstart : p ∉ (Executor.remove_node s p).nodes := by
    simp only [Executor.remove_node]
    intro hmem
    have := List.of_mem_filter hmem
    simp at this
  have h2 := runOps_avoids_removed ops (Executor.remove_node s p) hstart hadd
  exact ⟨hstart, h2.1, h2.2⟩

/-- Witness for C8: node 5 registered twice; after removal it is absent and a
run of cycles, additions of other nodes, a stop and another cycle never calls
`spin_some` on it. -/
theorem C8_remove_node_no_spin_witness :
    (5 : Nat) ∉ (Executor.remove_node ⟨true, [5, 7, 5]⟩ 5).nodes
    ∧ (5 : Nat) ∉ (Executor.runOps (Executor.remove_node ⟨true, [5, 7, 5]⟩ 5)
        [ExecOp.cycle, ExecOp.addNode 9, ExecOp.stopCall, ExecOp.cycle]).1.nodes
    ∧ (5 : Nat) ∉ (Executor.runOps (Executor.remove_node ⟨true, [5, 7, 5]⟩ 5)
        [ExecOp.cycle, ExecOp.addNode 9, ExecOp.stopCall, ExecOp.cycle]).2 :=
  C8_remove_node_no_spin ⟨true, [5, 7, 5]⟩ 5
    [ExecOp.cycle, ExecOp.addNode 9, ExecOp.stopCall, ExecOp.cycle]
    (by intro q hq; simp at hq; subst hq; decide)

theorem invoke_ok_fields {M : Type} (cb : M → Except String Unit)
    (hcb : ∀ m0, cb m0 = Except.ok ()) (s : SubState M) :
    (invoke cb s).1.invoked ++ (invoke cb s).1.buffer = s.invoked ++ s.buffer
    ∧ (invoke cb s).1.delivered = s.delivered
    ∧ (invoke cb s).1.pushed = s.pushed := by
  cases hb : s.buffer with
  | nil => simp [invoke, invokeBody, hb]
  | cons m rest => simp [invoke, invokeBody, hb, hcb m]

theorem runEvents_invariant {M : Type} (cb : M → Except String Unit)
    (hcb : ∀ m0, cb m0 = Except.ok ()) :
    ∀ (events : List (SubEvent M)) (s : SubState M),
      (runEvents cb events s).1.invoked ++ (runEvents cb events s).1.buffer
        = (s.invoked ++ s.buffer) ++ deliveredOf events
      ∧ (runEvents cb events s).1.delivered = s.delivered ++ deliveredOf events
      ∧ (runEvents cb events s).1.pushed = s.pushed + (deliveredOf events).length := by
  intro events
  induction events with
  | nil => intro s; simp [runEvents, deliveredOf]
  | cons ev rest ih =>
      intro s
      cases ev with
      | deliver m =>
          have ihs := ih (on_data_available s m)
          simp only [runEvents, deliveredOf]
          refine ⟨?_, ?_, ?_⟩
          · rw [ihs.1]; simp [on_data_available]
          · rw [ihs.2.1]; simp [on_data_available]
          · rw [ihs.2.2]; simp [on_data_available]; omega
      | dispatch =>
          have hstep := invoke_ok_fields cb hcb s
          have ihs := ih (invoke cb s).1
          simp only [runEvents, deliveredOf] at ihs ⊢
          refine ⟨?_, ?_, ?_⟩
          · rw [ihs.1, hstep.1]
          · rw [ihs.2.1, hstep.2.1]
          · rw [ihs.2.2, hstep.2.2]

/-- C2: per-delivery, `on_data_available` appends the message to the owned
buffer and pushes one dispatch closure; per-run, `invoke` on a non-empty
buffer calls the user callback on the front (oldest) message and removes
exactly that one (given the callback returns normally); hence over any
interleaving of deliveries and dispatches starting from the fresh
subscription, the invoked messages followed by the still-buffered ones are
exactly the delivered messages in arrival order — callbacks fire in arrival
order and each message is consumed exactly once — and the number of pushed
closures equals the number of deliveries. -/
theorem C2_subscription_order {M : Type} (cb : M → Except String Unit)
    (events : List (SubEvent M)) (s : SubState M) (m : M) (rest : List M)
    (hcb : ∀ m0, cb m0 = Except.ok ()) (hb : s.buffer = m :: rest) :
    (∀ m1 : M, on_data_available s m1
      = { s with buffer := s.buffer ++ [m1], pushed := s.pushed + 1,
                 delivered := s.delivered ++ [m1] })
    ∧ invoke cb s
      = ({ s with buffer := rest, invoked := s.invoked ++ [m], runs := s.runs + 1 }, [])
    ∧ (runEvents cb events (SubState.start M)).1.invoked
        ++ (runEvents cb events (SubState.start M)).1.buffer = deliveredOf events
    ∧ (runEvents cb events (SubState.start M)).1.pushed = (deliveredOf events).length := by
  have hinv := runEvents_invariant cb hcb events (SubState.start M)
  refine ⟨fun m1 => rfl, ?_, ?_, ?_⟩
  · simp [invoke, invokeBody, hb, hcb m]
  · rw [hinv.1]; simp [SubState.start]
  · rw [hinv.2.2]; simp [SubState.start]

/-- Witness for C2: two deliveries then two dispatches from the fresh
subscription, and one `invoke` on a buffer holding message 3. -/
theorem C2_subscription_order_witness :
    (∀ m1 : Nat, on_data_available (⟨[3], 1, [3], [], 0, 0⟩ : SubState Nat) m1
      = { (⟨[3], 1, [3], [], 0, 0⟩ : SubState Nat) with
            buffer := [3] ++ [m1], pushed := 1 + 1, delivered := [3] ++ [m1] })
    ∧ invoke (fun _ : Nat => Except.ok ()) (⟨[3], 1, [3], [], 0, 0⟩ : SubState Nat)
      = (⟨[], 1, [3], [3], 0, 1⟩, [])
    ∧ (runEvents (fun _ : Nat => Except.ok ())
        [SubEvent.deliver 1, SubEvent.deliver 2, SubEvent.dispatch, SubEvent.dispatch]
        (SubState.start Nat)).1.invoked
      ++ (runEvents (fun _ : Nat => Except.ok ())
        [SubEvent.deliver 1, SubEvent.deliver 2, SubEvent.dispatch, SubEvent.dispatch]
        (SubState.start Nat)).1.buffer
      = deliveredOf [SubEvent.deliver 1, SubEvent.deliver 2, SubEvent.dispatch, SubEvent.dispatch]
    ∧ (runEvents (fun _ : Nat => Except.ok ())
        [SubEvent.deliver 1, SubEvent.deliver 2, SubEvent.dispatch, SubEvent.dispatch]
        (SubState.start Nat)).1.pushed
      = (deliveredOf [SubEvent.deliver (1 : Nat), SubEvent.deliver 2,
          SubEvent.dispatch, SubEvent.dispatch]).length :=
  C2_subscription_order (fun _ : Nat => Except.ok ())
    [SubEvent.deliver 1, SubEvent.deliver 2, SubEvent.dispatch, SubEvent.dispatch]
    ⟨[3], 1, [3], [], 0, 0⟩ 3 [] (fun _ => rfl) rfl

theorem invoke_runs_succ {M : Type} (cb : M → Except String Unit) (s : SubState M) :
    (invoke cb s).1.runs = s.runs + 1 := by
  cases hb : s.buffer with
  | nil => simp [invoke, invokeBody, hb]
  | cons m rest =>
      cases hc : cb m with
      | ok u => cases u; simp [invoke, invokeBody, hb, hc]
      | error e => simp [invoke, invokeBody, hb, hc]

theorem drainAll_runs {M : Type} (cb : M → Except String Unit) :
    ∀ (k : Nat) (s : SubState M), (drainAll cb k s).1.runs = s.runs + k := by
  intro k
  induction k with
  | zero => intro s; simp [drainAll]
  | succ n ih =>
      intro s
      simp only [drainAll]
      rw [ih (invoke cb s).1, invoke_runs_succ]
      omega

/-- C5: an exception raised by the user callback during `invoke` is caught at
the dispatch boundary and logged — `invoke` returns normally with the state
unchanged apart from the run counter — and draining `k` pending closures
always executes all `k` of them whatever the callback raises, so a raising
callback never stops subsequent closures from running. -/
theorem C5_callback_exception_handling {M : Type} (cb : M → Except String Unit)
    (s : SubState M) (m : M) (rest : List M) (e : String) (k : Nat)
    (hb : s.buffer = m :: rest) (he : cb m = Except.error e) :
    invoke cb s
      = ({ s with runs := s.runs + 1 }, ["Exception during callback invocation: " ++ e])
    ∧ (drainAll cb k s).1.runs = s.runs + k := by
  refine ⟨?_, drainAll_runs cb k s⟩
  simp [invoke, invokeBody, hb, he]

/-- Witness for C5: a callback that always raises, one buffered message, a
drain of two pending closures. -/
theorem C5_callback_exception_handling_witness :
    invoke (fun _ : Nat => Except.error "boom") (⟨[1], 1, [1], [], 0, 0⟩ : SubState Nat)
      = (⟨[1], 1, [1], [], 0, 1⟩, ["Exception during callback invocation: " ++ "boom"])
    ∧ (drainAll (fun _ : Nat => Except.error "boom") 2
        (⟨[1], 1, [1], [], 0, 0⟩ : SubState Nat)).1.runs = 0 + 2 :=
  C5_callback_exception_handling (fun _ : Nat => Except.error "boom")
    ⟨[1], 1, [1], [], 0, 0⟩ 1 [] "boom" 2 rfl rfl

theorem catchUp_spec (period now : Int) (hp : 0 < period) (next : Int) :
    now < catchUp period now next hp
    ∧ (∃ k : Nat, catchUp period now next hp = next + (k : Int) * period ∧ (next ≤ now → 1 ≤ k))
    ∧ (next ≤ now → catchUp period now next hp - period ≤ now) := by
  by_cases h : next ≤ now
  · have heq : catchUp period now next hp = catchUp period now (next + period) hp := by
      rw [catchUp]
      rw [dif_pos h]
    have ih := catchUp_spec period now hp (next + period)
    obtain ⟨ih1, ⟨k, hk, hk1⟩, ih3⟩ := ih
    refine ⟨by rw [heq]; exact ih1, ⟨k + 1, ?_, fun _ => by omega⟩, fun _ => ?_⟩
    · rw [heq, hk]
      push_cast
      ring
    · rw [heq]
      by_cases h2 : next + period ≤ now
      · exact ih3 h2
      · have heq2 : catchUp period now (next + period) hp = next + period := by
          rw [catchUp]
          rw [dif_neg h2]
        rw [heq2]
        omega
  · have heq : catchUp period now next hp = next := by
      rw [catchUp]
      rw [dif_neg h]
    refine ⟨by rw [heq]; omega, ⟨0, by rw [heq]; simp, fun hc => absurd hc h⟩,
            fun hc => absurd hc h⟩
termination_by (now - next + 1).toNat
decreasing_by omega

/-- C3: a `Rate` of period P is constructed with `next_time = now + P`; when
`sleep()` is called before `next_time` it blocks until `next_time` and leaves
the rate unchanged; when called at or after `next_time` it advances
`next_time` by the smallest positive whole number of multiples of P putting
it strictly in the future (k is at least 1, the result exceeds `now`, and one
period fewer would not) and blocks until that instant; in both cases the wake
instant is strictly after `now`, so the sleep duration is never negative.
The source catch-up loop terminates only for positive periods, hence the
positivity hypotheses. -/
theorem C3_rate_sleep (P now0 : Int) (hP : 0 < P) (r : Rate) (now : Int) (hp : 0 < r.period) :
    (Rate.make P now0).next_time = now0 + P
    ∧ (now < r.next_time → Rate.sleep r now hp = (r, r.next_time))
    ∧ (r.next_time ≤ now →
        ∃ k : Nat, 1 ≤ k
          ∧ (Rate.sleep r now hp).1.next_time = r.next_time + (k : Int) * r.period
          ∧ (Rate.sleep r now hp).1.period = r.period
          ∧ now < (Rate.sleep r now hp).1.next_time
          ∧ (Rate.sleep r now hp).1.next_time - r.period ≤ now
          ∧ (Rate.sleep r now hp).2 = (Rate.sleep r now hp).1.next_time)
    ∧ now < (Rate.sleep r now hp).2 := by
  have hcu := catchUp_spec r.period now hp r.next_time
  obtain ⟨hgt, ⟨k, hk, hk1⟩, hmin⟩ := hcu
  by_cases hlt : now < r.next_time
  · refine ⟨rfl, fun _ => ?_, fun hge => absurd hlt (by omega), ?_⟩
    · simp [Rate.sleep, if_pos hlt]
    · simp only [Rate.sleep, if_pos hlt]
      exact hlt
  · have hge : r.next_time ≤ now := by omega
    have hsleep : Rate.sleep r now hp
        = ({ period := r.period, next_time := catchUp r.period now r.next_time hp },
           catchUp r.period now r.next_time hp) := by
      simp [Rate.sleep, if_neg hlt]
    refine ⟨rfl, fun hc => absurd hc hlt, fun _ => ?_, ?_⟩
    · refine ⟨k, hk1 hge, ?_, ?_, ?_, ?_, ?_⟩
      · rw [hsleep]; exact hk
      · rw [hsleep]
      · rw [hsleep]; exact hgt
      · rw [hsleep]; exact hmin hge
      · rw [hsleep]
    · rw [hsleep]
      exact hgt

/-- Witness for C3: period 10, construction at time 0; a rate with period 10
and next wake 7, slept at time 25 — the next wake advances to 27 = 7 + 2*10,
the smallest multiple strictly beyond 25. -/
theorem C3_rate_sleep_witness :
    (Rate.make 10 0).next_time = 0 + 10
    ∧ ((25 : Int) < (⟨10, 7⟩ : Rate).next_time →
        Rate.sleep ⟨10, 7⟩ 25 (by decide) = (⟨10, 7⟩, (⟨10, 7⟩ : Rate).next_time))
    ∧ ((⟨10, 7⟩ : Rate).next_time ≤ 25 →
        ∃ k : Nat, 1 ≤ k
          ∧ (Rate.sleep ⟨10, 7⟩ 25 (by decide)).1.next_time
              = (⟨10, 7⟩ : Rate).next_time + (k : Int) * (⟨10, 7⟩ : Rate).period
          ∧ (Rate.sleep ⟨10, 7⟩ 25 (by decide)).1.period = (⟨10, 7⟩ : Rate).period
          ∧ (25 : Int) < (Rate.sleep ⟨10, 7⟩ 25 (by decide)).1.next_time
          ∧ (Rate.sleep ⟨10, 7⟩ 25 (by decide)).1.next_time - (⟨10, 7⟩ : Rate).period ≤ 25
          ∧ (Rate.sleep ⟨10, 7⟩ 25 (by decide)).2
              = (Rate.sleep ⟨10, 7⟩ 25 (by decide)).1.next_time)
    ∧ (25 : Int) < (Rate.sleep ⟨10, 7⟩ 25 (by decide)).2 :=
  C3_rate_sleep 10 0 (by decide) ⟨10, 7⟩ 25 (by decide)
